import Mathlib

/-!
Verification of the reliable message-consumption layer of the
psychology-session-analyzer repository: a shallow embedding of the worker
callbacks, broker adapters and topology setup, with theorems about their
broker-operation traces.
-/

namespace PSA

/-- A JSON value: the result of a successful Python `json.loads`. -/
inductive Json where
  | null : Json
  | bool (b : Bool) : Json
  | num (n : Int) : Json
  | str (s : String) : Json
  | arr (elems : List Json) : Json
  | obj (fields : List (String × Json)) : Json

/-- A delivered message body as seen through `json.loads`: the bytes either
fail JSON decoding (`json.loads` raises `json.JSONDecodeError`) or parse to a
JSON value. -/
inductive Body where
  | notJson : Body
  | json (j : Json) : Body

/-- Key lookup in the fields of a parsed JSON object.  `json.loads` produces a
Python dict, so a later duplicate key overwrites an earlier one (last wins). -/
def Json.lookup (fields : List (String × Json)) (key : String) : Option Json :=
  match fields with
  | [] => none
  | (k, v) :: rest =>
    match Json.lookup rest key with
    | some w => some w
    | none => if k = key then some v else none

/-- `AudioMessage` (audio-transcriber, domain/models.py): pydantic model with
required string fields `file_name` and `bucket_name`; extra fields ignored
(pydantic default). -/
structure AudioMessage where
  file_name : String
  bucket_name : String
deriving DecidableEq

/-- `AudioMessage.model_validate`: succeeds exactly on a JSON object whose
`file_name` and `bucket_name` entries are present and are strings (pydantic v2
does not coerce non-strings into `str` fields); unknown extra fields are
ignored.  `none` models a raised `pydantic.ValidationError`. -/
def AudioMessage.model_validate (j : Json) : Option AudioMessage :=
  match j with
  | Json.obj fields =>
    match Json.lookup fields "file_name", Json.lookup fields "bucket_name" with
    | some (Json.str f), some (Json.str b) => some ⟨f, b⟩
    | _, _ => none
  | _ => none

/-- `TranscriptMessage` (transcript-analyzer, domain/models.py): pydantic model
with required string fields `file_name` and `bucket_name`. -/
structure TranscriptMessage where
  file_name : String
  bucket_name : String
deriving DecidableEq

/-- `TranscriptMessage.model_validate`, same validation behavior as
`AudioMessage.model_validate` (the two models declare the same two required
string fields, pydantic defaults otherwise). -/
def TranscriptMessage.model_validate (j : Json) : Option TranscriptMessage :=
  match j with
  | Json.obj fields =>
    match Json.lookup fields "file_name", Json.lookup fields "bucket_name" with
    | some (Json.str f), some (Json.str b) => some ⟨f, b⟩
    | _, _ => none
  | _ => none

/-- `TranscriptionResult` (audio-transcriber, domain/models.py). -/
structure TranscriptionResult where
  transcription_object_name : String
  bucket_name : String
  content_type : String := "text/plain"
deriving DecidableEq

/-- `AnalysisResult` (transcript-analyzer, domain/models.py). -/
structure AnalysisResult where
  file_name : String
  bucket_name : String
  session_id : String
deriving DecidableEq

/-- `QueueConfig` (config.py of both worker services; same fields). -/
structure QueueConfig where
  name : String
  queue_type : String
  max_delivery_count : Int
  expected_routing_key : String
  success_routing_key : String
  dlq_name : String
  dlq_exchange_name : String
  dlq_routing_key : String
deriving DecidableEq

/-- `RabbitMQConfig` (config.py of both worker services). -/
structure RabbitMQConfig where
  host : String
  user : String
  password : String
  exchange_name : String := "events"
  queue_config : QueueConfig
deriving DecidableEq

/-- The transcript-analyzer default queue configuration (config.py). -/
def transcriptAnalyzerQueueConfig : QueueConfig :=
  { name := "transcript_analysis_queue"
    queue_type := "quorum"
    max_delivery_count := 3
    expected_routing_key := "audio.transcription.completed"
    success_routing_key := "transcript.analysis.completed"
    dlq_name := "dlq_transcript_analyzer"
    dlq_exchange_name := "dead_letter_exchange"
    dlq_routing_key := "transcript.analysis.failed" }

/-- The transcript-analyzer `RabbitMQConfig` as built by `load_config` with the
environment variables unset (host default "rabbitmq", empty credentials). -/
def transcriptAnalyzerConfig : RabbitMQConfig :=
  { host := "rabbitmq", user := "", password := ""
    exchange_name := "events"
    queue_config := transcriptAnalyzerQueueConfig }

/-- The audio-transcriber default queue configuration (config.py). -/
def audioTranscriberQueueConfig : QueueConfig :=
  { name := "audio_transcription_queue"
    queue_type := "quorum"
    max_delivery_count := 3
    expected_routing_key := "audio.extraction.completed"
    success_routing_key := "audio.transcription.completed"
    dlq_name := "dlq_audio_transcriber"
    dlq_exchange_name := "dead_letter_exchange"
    dlq_routing_key := "audio.transcription.failed" }

/-- The audio-transcriber `RabbitMQConfig` as built by `load_config` with the
environment variables unset. -/
def audioTranscriberConfig : RabbitMQConfig :=
  { host := "rabbitmq", user := "", password := ""
    exchange_name := "events"
    queue_config := audioTranscriberQueueConfig }

/-- One completed call on the injected `MessageBroker` made by a worker
callback: `acknowledge`, `reject`, or a successful `publish`. -/
inductive BrokerOp where
  | acknowledge (delivery_tag : Int) : BrokerOp
  | reject (delivery_tag : Int) : BrokerOp
  | publish (routing_key : String) (payload : Json) : BrokerOp

/-- Observable outcome of one invocation of a worker message callback. -/
structure CallbackRun where
  /-- The delivery-count value carried in the "Message received" info log. -/
  attemptLogged : Json
  /-- Messages of `logger.exception` calls made by the worker itself. -/
  errorLogs : List String
  /-- Broker calls completed, in order. -/
  trace : List BrokerOp
  /-- Number of `handler.process` invocations. -/
  procCalls : Nat
  /-- Whether an exception propagated uncaught out of the callback. -/
  escaped : Bool

/-- `headers.get("x-delivery-count", 1) if headers else 1` (worker.py line 39
of both worker services). -/
def deliveryCount (headers : Option (List (String × Json))) : Json :=
  match headers with
  | none => Json.num 1
  | some h => (Json.lookup h "x-delivery-count").getD (Json.num 1)

namespace TranscriptAnalyzer

/-- The success-event payload built by the transcript-analyzer worker from the
handler result (worker.py lines 63-66). -/
def successPayload (result : AnalysisResult) : Json :=
  Json.obj [("file_name", Json.str result.file_name),
            ("bucket_name", Json.str result.bucket_name)]

/-- Embedding of `Worker._on_message` (transcript-analyzer worker.py, lines
35-82).  `handler` models the injected `TranscriptMessageHandler.process`
(`Except.error` = the call raised).  `publishOk` models whether the underlying
`basic_publish` succeeds; on failure the broker's `publish` raises
`EventPublishError`, which like any handler exception is caught by the
worker's `except Exception` clause.  `acknowledge` and `reject` are modelled
as succeeding broker calls.  A body that `json.loads` cannot parse raises
`json.JSONDecodeError`, which the `except ValidationError` clause does not
catch, so the exception escapes the callback. -/
def onMessage (config : RabbitMQConfig)
    (handler : TranscriptMessage → Except String AnalysisResult)
    (publishOk : Bool)
    (body : Body) (delivery_tag : Int)
    (headers : Option (List (String × Json))) : CallbackRun :=
  let attempt := deliveryCount headers
  match body with
  | Body.notJson =>
    { attemptLogged := attempt, errorLogs := [], trace := [],
      procCalls := 0, escaped := true }
  | Body.json j =>
    match TranscriptMessage.model_validate j with
    | none =>
      { attemptLogged := attempt
        errorLogs := ["Invalid message format"]
        trace := [BrokerOp.reject delivery_tag]
        procCalls := 0, escaped := false }
    | some message =>
      match handler message with
      | Except.error _ =>
        { attemptLogged := attempt
          errorLogs := ["Message processing failed"]
          trace := [BrokerOp.reject delivery_tag]
          procCalls := 1, escaped := false }
      | Except.ok result =>
        if publishOk then
          { attemptLogged := attempt
            errorLogs := []
            trace := [BrokerOp.acknowledge delivery_tag,
                      BrokerOp.publish config.queue_config.success_routing_key
                        (successPayload result)]
            procCalls := 1, escaped := false }
        else
          { attemptLogged := attempt
            errorLogs := ["Message processing failed"]
            trace := [BrokerOp.acknowledge delivery_tag,
                      BrokerOp.reject delivery_tag]
            procCalls := 1, escaped := false }

end TranscriptAnalyzer

namespace AudioTranscriber

/-- The success-event payload built by the audio-transcriber worker from the
handler result (worker.py lines 63-67). -/
def successPayload (result : TranscriptionResult) : Json :=
  Json.obj [("file_name", Json.str result.transcription_object_name),
            ("bucket_name", Json.str result.bucket_name),
            ("content_type", Json.str result.content_type)]

/-- Embedding of `Worker._on_message` (audio-transcriber worker.py, lines
35-84); identical control flow to the transcript-analyzer worker, with
`AudioMessageHandler.process` returning a `TranscriptionResult` and a
three-field success payload. -/
def onMessage (config : RabbitMQConfig)
    (handler : AudioMessage → Except String TranscriptionResult)
    (publishOk : Bool)
    (body : Body) (delivery_tag : Int)
    (headers : Option (List (String × Json))) : CallbackRun :=
  let attempt := deliveryCount headers
  match body with
  | Body.notJson =>
    { attemptLogged := attempt, errorLogs := [], trace := [],
      procCalls := 0, escaped := true }
  | Body.json j =>
    match AudioMessage.model_validate j with
    | none =>
      { attemptLogged := attempt
        errorLogs := ["Invalid message format"]
        trace := [BrokerOp.reject delivery_tag]
        procCalls := 0, escaped := false }
    | some message =>
      match handler message with
      | Except.error _ =>
        { attemptLogged := attempt
          errorLogs := ["Message processing failed"]
          trace := [BrokerOp.reject delivery_tag]
          procCalls := 1, escaped := false }
      | Except.ok result =>
        if publishOk then
          { attemptLogged := attempt
            errorLogs := []
            trace := [BrokerOp.acknowledge delivery_tag,
                      BrokerOp.publish config.queue_config.success_routing_key
                        (successPayload result)]
            procCalls := 1, escaped := false }
        else
          { attemptLogged := attempt
            errorLogs := ["Message processing failed"]
            trace := [BrokerOp.acknowledge delivery_tag,
                      BrokerOp.reject delivery_tag]
            procCalls := 1, escaped := false }

end AudioTranscriber

/-- One call on a pika channel that settles or publishes a message. -/
inductive PikaCall where
  | basic_ack (delivery_tag : Int) : PikaCall
  | basic_nack (delivery_tag : Int) (requeue : Bool) : PikaCall
  | basic_publish (exchange : String) (routing_key : String) (body : Json) : PikaCall

/-- pika `BlockingChannel.basic_nack(delivery_tag, multiple=False,
requeue=True)`: the `requeue` keyword defaults to `True`. -/
def pikaBasicNack (delivery_tag : Int) (requeue : Bool := true) : PikaCall :=
  PikaCall.basic_nack delivery_tag requeue

/-- Does this pika call negatively acknowledge with requeue requested? -/
def PikaCall.requestsRequeue : PikaCall → Bool
  | PikaCall.basic_nack _ r => r
  | _ => false

namespace TranscriptAnalyzerBroker

/-- `RabbitMQBroker.reject` (transcript-analyzer rabbitmq_broker.py, lines
60-62): `basic_nack(delivery_tag=delivery_tag, requeue=True)`. -/
def reject (delivery_tag : Int) : PikaCall :=
  pikaBasicNack delivery_tag true

end TranscriptAnalyzerBroker

namespace AudioExtractorBroker

/-- `RabbitMQBroker.reject` (audio-extractor rabbitmq_broker.py, lines 49-50):
`basic_nack(delivery_tag=delivery_tag)`, relying on pika's default
`requeue=True`. -/
def reject (delivery_tag : Int) : PikaCall :=
  pikaBasicNack delivery_tag

end AudioExtractorBroker

namespace AudioExtractor

/-- Embedding of `process_video` (audio-extractor main.py, lines 161-251).
`minioGetOk` models whether `minio_client.get_object` succeeds, `extractOk`
whether the extraction-and-upload block succeeds.  `json.loads`, the
`data["file_name"]` / `data["bucket_name"]` subscriptions and the header read
happen outside any try clause, so a non-JSON body (JSONDecodeError), a
non-object JSON body (TypeError) or a missing key (KeyError) escapes the
callback.  On the success path the function calls `basic_ack` and returns:
the `basic_publish` of the completion event (lines 226-243) is commented out
in the source.  Result: the pika calls made, and whether an exception escaped
the callback. -/
def process_video (minioGetOk extractOk : Bool) (body : Body)
    (delivery_tag : Int) : List PikaCall × Bool :=
  match body with
  | Body.notJson => ([], true)
  | Body.json (Json.obj fields) =>
    match Json.lookup fields "file_name", Json.lookup fields "bucket_name" with
    | some _, some _ =>
      if minioGetOk then
        if extractOk then ([PikaCall.basic_ack delivery_tag], false)
        else ([pikaBasicNack delivery_tag], false)
      else ([pikaBasicNack delivery_tag], false)
    | _, _ => ([], true)
  | Body.json _ => ([], true)

end AudioExtractor

/-- One topology-declaring call on a pika channel. -/
inductive ChannelOp where
  | exchange_declare (exchange : String) (exchange_type : String)
      (durable : Bool) : ChannelOp
  | queue_declare (queue : String) (durable : Bool)
      (arguments : List (String × Json)) : ChannelOp
  | queue_bind (queue : String) (exchange : String) (routing_key : String)
      (arguments : List (String × Json)) : ChannelOp

/-- Whether the call declares the named queue. -/
def ChannelOp.declaresQueue (q : String) : ChannelOp → Bool
  | ChannelOp.queue_declare q2 _ _ => q2 == q
  | _ => false

/-- Whether the call binds the named queue to some exchange. -/
def ChannelOp.bindsQueue (q : String) : ChannelOp → Bool
  | ChannelOp.queue_bind q2 _ _ _ => q2 == q
  | _ => false

/-- The queue-declaration argument table the spec requires for a stage's main
queue. -/
def requiredQueueArguments (qc : QueueConfig) : List (String × Json) :=
  [("x-queue-type", Json.str qc.queue_type),
   ("x-delivery-limit", Json.num qc.max_delivery_count),
   ("x-dead-letter-exchange", Json.str qc.dlq_exchange_name),
   ("x-dead-letter-routing-key", Json.str qc.dlq_routing_key)]

namespace TranscriptAnalyzerBroker

/-- Embedding of `RabbitMQBroker.setup` (transcript-analyzer
rabbitmq_broker.py, lines 88-136): the channel calls it issues, in order. -/
def setup (config : RabbitMQConfig) : List ChannelOp :=
  let qc := config.queue_config
  [ChannelOp.exchange_declare qc.dlq_exchange_name "direct" true,
   ChannelOp.queue_declare qc.dlq_name true [],
   ChannelOp.queue_bind qc.dlq_name qc.dlq_exchange_name qc.dlq_routing_key [],
   ChannelOp.exchange_declare config.exchange_name "topic" true,
   ChannelOp.queue_declare qc.name true
     [("x-queue-type", Json.str qc.queue_type),
      ("x-delivery-limit", Json.num qc.max_delivery_count),
      ("x-dead-letter-exchange", Json.str qc.dlq_exchange_name),
      ("x-dead-letter-routing-key", Json.str qc.dlq_routing_key)],
   ChannelOp.queue_bind qc.name config.exchange_name
     qc.expected_routing_key []]

end TranscriptAnalyzerBroker

namespace AudioExtractor

/-- Embedding of the topology part of `get_rabbit_channel` (audio-extractor
main.py, lines 95-124): the channel calls it issues after connecting, in
order.  Note the source declares `audio_extraction_queue` with no `arguments`
keyword and instead passes the args dict to `queue_bind`. -/
def get_rabbit_channel_topology : List ChannelOp :=
  [ChannelOp.exchange_declare "dead_letter_exchange" "direct" true,
   ChannelOp.queue_declare "dlq_audio_extraction" true [],
   ChannelOp.queue_bind "dlq_audio_extraction" "dead_letter_exchange"
     "audio.extraction.failed" [],
   ChannelOp.exchange_declare "events" "topic" true,
   ChannelOp.queue_declare "audio_extraction_queue" true [],
   ChannelOp.queue_bind "audio_extraction_queue" "events"
     "video.upload.completed"
     [("x-queue-type", Json.str "quorum"),
      ("x-delivery-limit", Json.num 3),
      ("x-dead-letter-exchange", Json.str "dead_letter_exchange"),
      ("x-dead-letter-routing-key", Json.str "audio.extraction.failed")]]

end AudioExtractor

namespace PsychologyCommon

/-- Embedding of `get_rabbit_channel` (psychology_common/rabbitmq.py, lines
8-36).  `connectResult` models the single attempt
`pika.BlockingConnection(parameters)` followed by `connection.channel()`:
either it yields a (connection, channel) pair or one of the calls raises.
The try clause returns the pair; `except Exception` logs
"Failed to connect to RabbitMQ" and falls off the end of the function, which
in Python returns `None`.  The result is the returned value together with the
messages logged via `logger.exception`. -/
def get_rabbit_channel {Conn Chan : Type}
    (connectResult : Except String (Conn × Chan)) :
    Option (Conn × Chan) × List String :=
  match connectResult with
  | Except.ok pair => (some pair, [])
  | Except.error _ => (none, ["Failed to connect to RabbitMQ"])

/-- Python tuple unpacking `connection, channel = e`: unpacking `None` raises
`TypeError`. -/
def tupleUnpack {Conn Chan : Type} (v : Option (Conn × Chan)) :
    Except String (Conn × Chan) :=
  match v with
  | none => Except.error "TypeError"
  | some pair => Except.ok pair

end PsychologyCommon

/-- Number of settling calls (acknowledge or reject) on the given delivery tag
in a broker-operation trace. -/
def settleCount (tag : Int) (trace : List BrokerOp) : Nat :=
  trace.countP fun op =>
    match op with
    | BrokerOp.acknowledge t => t == tag
    | BrokerOp.reject t => t == tag
    | _ => false

/-- Number of acknowledge calls on the given delivery tag in a trace. -/
def ackCount (tag : Int) (trace : List BrokerOp) : Nat :=
  trace.countP fun op =>
    match op with
    | BrokerOp.acknowledge t => t == tag
    | _ => false

/-- Number of publish calls in a broker-operation trace. -/
def publishCount (trace : List BrokerOp) : Nat :=
  trace.countP fun op =>
    match op with
    | BrokerOp.publish _ _ => true
    | _ => false

/-- `publishesOnlyAfterAck tag acked ops` holds when every publish in `ops`
is preceded (within `ops`, or by `acked` before it) by an acknowledge of
`tag`. -/
def publishesOnlyAfterAck (tag : Int) (acked : Bool) : List BrokerOp → Bool
  | [] => true
  | BrokerOp.acknowledge t :: rest =>
      publishesOnlyAfterAck tag (acked || t == tag) rest
  | BrokerOp.reject _ :: rest => publishesOnlyAfterAck tag acked rest
  | BrokerOp.publish _ _ :: rest => acked && publishesOnlyAfterAck tag acked rest

/-- Number of publish calls in a pika call list. -/
def pikaPublishCount (calls : List PikaCall) : Nat :=
  calls.countP fun c =>
    match c with
    | PikaCall.basic_publish _ _ _ => true
    | _ => false

/-- A concrete valid wire envelope, as in the spec's test scenario. -/
def sampleEnvelopeFields : List (String × Json) :=
  [("file_name", Json.str "2025/01/15/abc123/transcripts/john-doe.txt"),
   ("bucket_name", Json.str "sessions")]

/-- A transcript-analyzer handler behavior that succeeds, echoing the message
location into the `AnalysisResult`. -/
def sampleTranscriptHandler : TranscriptMessage → Except String AnalysisResult :=
  fun m => Except.ok ⟨m.file_name, m.bucket_name, "abc123"⟩

/-- An audio-transcriber handler behavior that succeeds. -/
def sampleAudioHandler : AudioMessage → Except String TranscriptionResult :=
  fun m => Except.ok ⟨"2025/01/15/abc123/transcription/john-doe.txt",
                      m.bucket_name, "text/plain"⟩

/-- C1: evaluating both worker callbacks at a valid envelope whose handler
succeeds but whose success-event publish fails (`EventPublishError`): the
worker logs the failure via `logger.exception` — and then its generic
`except Exception` clause calls `reject` on the delivery tag that was already
acknowledged inside the same try block, so the run settles the tag twice
(once by ack, once by reject). -/
theorem post_ack_publish_failure_rejects_acked_tag :
    (TranscriptAnalyzer.onMessage transcriptAnalyzerConfig
        sampleTranscriptHandler false
        (Body.json (Json.obj sampleEnvelopeFields)) 7 none).trace
      = [BrokerOp.acknowledge 7, BrokerOp.reject 7]
    ∧ (TranscriptAnalyzer.onMessage transcriptAnalyzerConfig
        sampleTranscriptHandler false
        (Body.json (Json.obj sampleEnvelopeFields)) 7 none).errorLogs
      = ["Message processing failed"]
    ∧ (AudioTranscriber.onMessage audioTranscriberConfig
        sampleAudioHandler false
        (Body.json (Json.obj sampleEnvelopeFields)) 7 none).trace
      = [BrokerOp.acknowledge 7, BrokerOp.reject 7]
    ∧ (AudioTranscriber.onMessage audioTranscriberConfig
        sampleAudioHandler false
        (Body.json (Json.obj sampleEnvelopeFields)) 7 none).errorLogs
      = ["Message processing failed"] :=
  ⟨rfl, rfl, rfl, rfl⟩

/-- C4, counterexample: the audio-extractor stage's callback `process_video`,
on a fully successful run over a valid envelope, issues a single `basic_ack`
and publishes nothing — its success-event `basic_publish` is commented out in
the source — contradicting the claim that the worker publishes exactly one
success event. -/
theorem audio_extractor_success_acks_without_publishing :
    AudioExtractor.process_video true true
        (Body.json (Json.obj sampleEnvelopeFields)) 5
      = ([PikaCall.basic_ack 5], false)
    ∧ pikaPublishCount
        (AudioExtractor.process_video true true
          (Body.json (Json.obj sampleEnvelopeFields)) 5).1 = 0 :=
  ⟨rfl, rfl⟩

/-- C6: evaluation at the audio-extractor topology setup
(`get_rabbit_channel`): the only declaration of the stage's main queue
`audio_extraction_queue` carries no arguments, while the
`x-queue-type`/`x-delivery-limit`/`x-dead-letter-*` table is passed to
`queue_bind` instead; the transcript-analyzer's `RabbitMQBroker.setup`, by
contrast, attaches exactly the required arguments to the queue declaration
itself. -/
theorem audio_extractor_topology_args_on_bind_not_on_declare :
    (AudioExtractor.get_rabbit_channel_topology.filter
        (ChannelOp.declaresQueue "audio_extraction_queue"))
      = [ChannelOp.queue_declare "audio_extraction_queue" true []]
    ∧ (AudioExtractor.get_rabbit_channel_topology.filter
        (ChannelOp.bindsQueue "audio_extraction_queue"))
      = [ChannelOp.queue_bind "audio_extraction_queue" "events"
          "video.upload.completed"
          [("x-queue-type", Json.str "quorum"),
           ("x-delivery-limit", Json.num 3),
           ("x-dead-letter-exchange", Json.str "dead_letter_exchange"),
           ("x-dead-letter-routing-key", Json.str "audio.extraction.failed")]]
    ∧ ((TranscriptAnalyzerBroker.setup transcriptAnalyzerConfig).filter
        (ChannelOp.declaresQueue "transcript_analysis_queue"))
      = [ChannelOp.queue_declare "transcript_analysis_queue" true
          (requiredQueueArguments transcriptAnalyzerQueueConfig)]
    ∧ ((TranscriptAnalyzerBroker.setup transcriptAnalyzerConfig).filter
        (ChannelOp.bindsQueue "transcript_analysis_queue"))
      = [ChannelOp.queue_bind "transcript_analysis_queue" "events"
          "audio.transcription.completed" []] :=
  ⟨rfl, rfl, rfl, rfl⟩

/-- C7: the `reject` operation of both broker implementations in the source
(the transcript-analyzer's, which passes `requeue=True` explicitly, and the
audio-extractor's, which relies on pika's `requeue=True` default) issues a
`basic_nack` that requests requeue — never a silent drop. -/
theorem reject_always_requests_requeue (delivery_tag : Int) :
    (TranscriptAnalyzerBroker.reject delivery_tag).requestsRequeue = true
    ∧ (AudioExtractorBroker.reject delivery_tag).requestsRequeue = true
    ∧ TranscriptAnalyzerBroker.reject delivery_tag
        = PikaCall.basic_nack delivery_tag true
    ∧ AudioExtractorBroker.reject delivery_tag
        = PikaCall.basic_nack delivery_tag true :=
  ⟨rfl, rfl, rfl, rfl⟩

/-- C10: the shared `get_rabbit_channel` helper catches any connection
failure, logs it, and returns `None` (it makes a single attempt and never
re-raises); on success it returns the (connection, channel) pair, and a
caller unpacking the `None` result fails with a `TypeError`. -/
theorem common_get_rabbit_channel_catches_logs_returns_none
    {Conn Chan : Type} (e : String) (conn : Conn) (chan : Chan) :
    PsychologyCommon.get_rabbit_channel
        (Except.error e : Except String (Conn × Chan))
      = (none, ["Failed to connect to RabbitMQ"])
    ∧ PsychologyCommon.get_rabbit_channel (Except.ok (conn, chan))
      = (some (conn, chan), ([] : List String))
    ∧ PsychologyCommon.tupleUnpack
        (PsychologyCommon.get_rabbit_channel
          (Except.error e : Except String (Conn × Chan))).1
      = Except.error "TypeError" :=
  ⟨rfl, rfl, rfl⟩

/-- C2, counterexample: a body that is not valid JSON makes `json.loads`
raise `json.JSONDecodeError`, which the workers' `except ValidationError`
clause does not catch: the exception escapes the callback and `reject` is
never called (zero broker calls), contradicting the claim that every
undecodable body is rejected exactly once. -/
theorem not_json_body_escapes_without_reject :
    (TranscriptAnalyzer.onMessage transcriptAnalyzerConfig
        sampleTranscriptHandler true Body.notJson 3 none).trace = []
    ∧ (TranscriptAnalyzer.onMessage transcriptAnalyzerConfig
        sampleTranscriptHandler true Body.notJson 3 none).escaped = true
    ∧ (AudioTranscriber.onMessage audioTranscriberConfig
        sampleAudioHandler true Body.notJson 3 none).trace = []
    ∧ (AudioTranscriber.onMessage audioTranscriberConfig
        sampleAudioHandler true Body.notJson 3 none).escaped = true :=
  ⟨rfl, rfl, rfl, rfl⟩

/-- C2, amended: a body that parses as JSON but fails envelope validation is
rejected exactly once with the handler never invoked; a body that is not
valid JSON escapes the callback uncaught, with no broker call and no handler
invocation. -/
theorem schema_invalid_json_rejected_without_processor
    (config : RabbitMQConfig)
    (thandler : TranscriptMessage → Except String AnalysisResult)
    (ahandler : AudioMessage → Except String TranscriptionResult)
    (publishOk : Bool) (j : Json) (delivery_tag : Int)
    (headers : Option (List (String × Json)))
    (hT : TranscriptMessage.model_validate j = none)
    (hA : AudioMessage.model_validate j = none) :
    (TranscriptAnalyzer.onMessage config thandler publishOk (Body.json j)
        delivery_tag headers).trace = [BrokerOp.reject delivery_tag]
    ∧ (TranscriptAnalyzer.onMessage config thandler publishOk (Body.json j)
        delivery_tag headers).procCalls = 0
    ∧ (AudioTranscriber.onMessage config ahandler publishOk (Body.json j)
        delivery_tag headers).trace = [BrokerOp.reject delivery_tag]
    ∧ (AudioTranscriber.onMessage config ahandler publishOk (Body.json j)
        delivery_tag headers).procCalls = 0
    ∧ (TranscriptAnalyzer.onMessage config thandler publishOk Body.notJson
        delivery_tag headers).trace = []
    ∧ (TranscriptAnalyzer.onMessage config thandler publishOk Body.notJson
        delivery_tag headers).procCalls = 0
    ∧ (AudioTranscriber.onMessage config ahandler publishOk Body.notJson
        delivery_tag headers).trace = []
    ∧ (AudioTranscriber.onMessage config ahandler publishOk Body.notJson
        delivery_tag headers).procCalls = 0 := by
  refine ⟨?_, ?_, ?_, ?_, rfl, rfl, rfl, rfl⟩ <;>
    simp [TranscriptAnalyzer.onMessage, AudioTranscriber.onMessage, hT, hA]

/-- C2, witness for the amended theorem at the spec's test scenario: the
envelope missing `file_name`. -/
theorem schema_invalid_json_rejected_without_processor_witness :
    (TranscriptAnalyzer.onMessage transcriptAnalyzerConfig
        sampleTranscriptHandler true
        (Body.json (Json.obj [("bucket_name", Json.str "sessions")]))
        4 none).trace = [BrokerOp.reject 4]
    ∧ (AudioTranscriber.onMessage audioTranscriberConfig
        sampleAudioHandler true
        (Body.json (Json.obj [("bucket_name", Json.str "sessions")]))
        4 none).procCalls = 0 := by
  have h := schema_invalid_json_rejected_without_processor
    transcriptAnalyzerConfig sampleTranscriptHandler sampleAudioHandler true
    (Json.obj [("bucket_name", Json.str "sessions")]) 4 none rfl rfl
  have h2 := schema_invalid_json_rejected_without_processor
    audioTranscriberConfig sampleTranscriptHandler sampleAudioHandler true
    (Json.obj [("bucket_name", Json.str "sessions")]) 4 none rfl rfl
  exact ⟨h.1, h2.2.2.2.1⟩

/-- C3, counterexample: for a body that is not valid JSON the callback makes
zero settling broker calls on the delivery tag (the exception escapes),
contradicting the claim that every invocation makes exactly one. -/
theorem not_json_body_gets_zero_settling_calls :
    settleCount 9 (TranscriptAnalyzer.onMessage transcriptAnalyzerConfig
        sampleTranscriptHandler true Body.notJson 9 none).trace = 0
    ∧ settleCount 9 (AudioTranscriber.onMessage audioTranscriberConfig
        sampleAudioHandler true Body.notJson 9 none).trace = 0 :=
  ⟨rfl, rfl⟩

/-- C3, amended: for every body that parses as JSON (any headers, any handler
behavior) a callback run in which the success-event publish does not fail
performs exactly one settling call on the delivery tag; and in every run
whatsoever — including non-JSON bodies and failing publishes — the tag is
acknowledged at most once, so a single delivery tag is never
double-acknowledged. -/
theorem json_body_settled_exactly_once
    (config : RabbitMQConfig)
    (thandler : TranscriptMessage → Except String AnalysisResult)
    (ahandler : AudioMessage → Except String TranscriptionResult)
    (publishOk : Bool) (j : Json) (body : Body) (delivery_tag : Int)
    (headers : Option (List (String × Json))) :
    settleCount delivery_tag
        (TranscriptAnalyzer.onMessage config thandler true (Body.json j)
          delivery_tag headers).trace = 1
    ∧ settleCount delivery_tag
        (AudioTranscriber.onMessage config ahandler true (Body.json j)
          delivery_tag headers).trace = 1
    ∧ ackCount delivery_tag
        (TranscriptAnalyzer.onMessage config thandler publishOk body
          delivery_tag headers).trace ≤ 1
    ∧ ackCount delivery_tag
        (AudioTranscriber.onMessage config ahandler publishOk body
          delivery_tag headers).trace ≤ 1 := by
  refine ⟨?_, ?_, ?_, ?_⟩
  case _ =>
    rcases hv : TranscriptMessage.model_validate j with _ | m
    case _ => simp [TranscriptAnalyzer.onMessage, hv, settleCount]
    case _ =>
      rcases hr : thandler m with e | r <;>
        simp [TranscriptAnalyzer.onMessage, hv, hr, settleCount]
  case _ =>
    rcases hv : AudioMessage.model_validate j with _ | m
    case _ => simp [AudioTranscriber.onMessage, hv, settleCount]
    case _ =>
      rcases hr : ahandler m with e | r <;>
        simp [AudioTranscriber.onMessage, hv, hr, settleCount]
  case _ =>
    rcases body with _ | j2
    case _ => simp [TranscriptAnalyzer.onMessage, ackCount]
    case _ =>
      rcases hv : TranscriptMessage.model_validate j2 with _ | m
      case _ => simp [TranscriptAnalyzer.onMessage, hv, ackCount]
      case _ =>
        rcases hr : thandler m with e | r <;> rcases publishOk with _ | _ <;>
          simp [TranscriptAnalyzer.onMessage, hv, hr, ackCount]
  case _ =>
    rcases body with _ | j2
    case _ => simp [AudioTranscriber.onMessage, ackCount]
    case _ =>
      rcases hv : AudioMessage.model_validate j2 with _ | m
      case _ => simp [AudioTranscriber.onMessage, hv, ackCount]
      case _ =>
        rcases hr : ahandler m with e | r <;> rcases publishOk with _ | _ <;>
          simp [AudioTranscriber.onMessage, hv, hr, ackCount]

/-- C5: in every run of either worker callback — any body, any headers, any
handler behavior, publish succeeding or failing — every publish of the
success event happens strictly after the acknowledge of the delivery tag: a
state with the event published but the delivery unacknowledged is never
reached. -/
theorem success_event_published_only_after_ack
    (config : RabbitMQConfig)
    (thandler : TranscriptMessage → Except String AnalysisResult)
    (ahandler : AudioMessage → Except String TranscriptionResult)
    (publishOk : Bool) (body : Body) (delivery_tag : Int)
    (headers : Option (List (String × Json))) :
    publishesOnlyAfterAck delivery_tag false
        (TranscriptAnalyzer.onMessage config thandler publishOk body
          delivery_tag headers).trace = true
    ∧ publishesOnlyAfterAck delivery_tag false
        (AudioTranscriber.onMessage config ahandler publishOk body
          delivery_tag headers).trace = true := by
  constructor
  case _ =>
    rcases body with _ | j
    case _ => simp [TranscriptAnalyzer.onMessage, publishesOnlyAfterAck]
    case _ =>
      rcases hv : TranscriptMessage.model_validate j with _ | m
      case _ => simp [TranscriptAnalyzer.onMessage, hv, publishesOnlyAfterAck]
      case _ =>
        rcases hr : thandler m with e | r <;> rcases publishOk with _ | _ <;>
          simp [TranscriptAnalyzer.onMessage, hv, hr, publishesOnlyAfterAck]
  case _ =>
    rcases body with _ | j
    case _ => simp [AudioTranscriber.onMessage, publishesOnlyAfterAck]
    case _ =>
      rcases hv : AudioMessage.model_validate j with _ | m
      case _ => simp [AudioTranscriber.onMessage, hv, publishesOnlyAfterAck]
      case _ =>
        rcases hr : ahandler m with e | r <;> rcases publishOk with _ | _ <;>
          simp [AudioTranscriber.onMessage, hv, hr, publishesOnlyAfterAck]

/-- C8: the delivery-count header influences only logging: two runs of either
worker callback differing only in the headers argument perform the identical
sequence of broker calls, log the same error-class events, invoke the handler
the same number of times and escape identically; with headers absent the
logged attempt value defaults to 1. -/
theorem delivery_count_header_only_affects_logging
    (config : RabbitMQConfig)
    (thandler : TranscriptMessage → Except String AnalysisResult)
    (ahandler : AudioMessage → Except String TranscriptionResult)
    (publishOk : Bool) (body : Body) (delivery_tag : Int)
    (h1 h2 : Option (List (String × Json))) :
    (TranscriptAnalyzer.onMessage config thandler publishOk body
        delivery_tag h1).trace
      = (TranscriptAnalyzer.onMessage config thandler publishOk body
        delivery_tag h2).trace
    ∧ (TranscriptAnalyzer.onMessage config thandler publishOk body
        delivery_tag h1).errorLogs
      = (TranscriptAnalyzer.onMessage config thandler publishOk body
        delivery_tag h2).errorLogs
    ∧ (TranscriptAnalyzer.onMessage config thandler publishOk body
        delivery_tag h1).procCalls
      = (TranscriptAnalyzer.onMessage config thandler publishOk body
        delivery_tag h2).procCalls
    ∧ (TranscriptAnalyzer.onMessage config thandler publishOk body
        delivery_tag h1).escaped
      = (TranscriptAnalyzer.onMessage config thandler publishOk body
        delivery_tag h2).escaped
    ∧ (AudioTranscriber.onMessage config ahandler publishOk body
        delivery_tag h1).trace
      = (AudioTranscriber.onMessage config ahandler publishOk body
        delivery_tag h2).trace
    ∧ (AudioTranscriber.onMessage config ahandler publishOk body
        delivery_tag h1).errorLogs
      = (AudioTranscriber.onMessage config ahandler publishOk body
        delivery_tag h2).errorLogs
    ∧ (AudioTranscriber.onMessage config ahandler publishOk body
        delivery_tag h1).procCalls
      = (AudioTranscriber.onMessage config ahandler publishOk body
        delivery_tag h2).procCalls
    ∧ (AudioTranscriber.onMessage config ahandler publishOk body
        delivery_tag h1).escaped
      = (AudioTranscriber.onMessage config ahandler publishOk body
        delivery_tag h2).escaped
    ∧ deliveryCount none = Json.num 1 := by
  rcases body with _ | j
  case _ => simp [TranscriptAnalyzer.onMessage, AudioTranscriber.onMessage,
    deliveryCount]
  case _ =>
    rcases hvt : TranscriptMessage.model_validate j with _ | m <;>
      rcases hva : AudioMessage.model_validate j with _ | m2
    case _ => simp [TranscriptAnalyzer.onMessage, AudioTranscriber.onMessage,
      hvt, hva, deliveryCount]
    case _ =>
      rcases hr : ahandler m2 with e | r <;>
        rcases publishOk with _ | _ <;>
        simp [TranscriptAnalyzer.onMessage, AudioTranscriber.onMessage,
          hvt, hva, hr, deliveryCount]
    case _ =>
      rcases hr : thandler m with e | r <;>
        rcases publishOk with _ | _ <;>
        simp [TranscriptAnalyzer.onMessage, AudioTranscriber.onMessage,
          hvt, hva, hr, deliveryCount]
    case _ =>
      rcases hrt : thandler m with e | r <;>
        rcases hra : ahandler m2 with e2 | r2 <;>
        rcases publishOk with _ | _ <;>
        simp [TranscriptAnalyzer.onMessage, AudioTranscriber.onMessage,
          hvt, hva, hrt, hra, deliveryCount]

/-- C4, amended: for every valid envelope and handler invocation returning
successfully, the transcript-analyzer and audio-transcriber Worker callbacks
(with the success-event publish itself succeeding) acknowledge the delivery
tag exactly once and publish exactly one success event to the configured
success routing key, its payload derived from the handler result. -/
theorem worker_success_acks_once_and_publishes_result
    (config : RabbitMQConfig)
    (thandler : TranscriptMessage → Except String AnalysisResult)
    (ahandler : AudioMessage → Except String TranscriptionResult)
    (j : Json) (delivery_tag : Int)
    (headers : Option (List (String × Json)))
    (tm : TranscriptMessage) (am : AudioMessage)
    (tr : AnalysisResult) (ar : TranscriptionResult)
    (hTv : TranscriptMessage.model_validate j = some tm)
    (hTr : thandler tm = Except.ok tr)
    (hAv : AudioMessage.model_validate j = some am)
    (hAr : ahandler am = Except.ok ar) :
    (TranscriptAnalyzer.onMessage config thandler true (Body.json j)
        delivery_tag headers).trace
      = [BrokerOp.acknowledge delivery_tag,
         BrokerOp.publish config.queue_config.success_routing_key
           (TranscriptAnalyzer.successPayload tr)]
    ∧ (AudioTranscriber.onMessage config ahandler true (Body.json j)
        delivery_tag headers).trace
      = [BrokerOp.acknowledge delivery_tag,
         BrokerOp.publish config.queue_config.success_routing_key
           (AudioTranscriber.successPayload ar)] := by
  constructor <;>
    simp [TranscriptAnalyzer.onMessage, AudioTranscriber.onMessage,
      hTv, hTr, hAv, hAr]

/-- C4, witness for the amended theorem at the concrete sample envelope and
succeeding handlers. -/
theorem worker_success_acks_once_and_publishes_result_witness :
    (TranscriptAnalyzer.onMessage transcriptAnalyzerConfig
        sampleTranscriptHandler true
        (Body.json (Json.obj sampleEnvelopeFields)) 11 none).trace
      = [BrokerOp.acknowledge 11,
         BrokerOp.publish "transcript.analysis.completed"
           (TranscriptAnalyzer.successPayload
             ⟨"2025/01/15/abc123/transcripts/john-doe.txt", "sessions",
              "abc123"⟩)]
    ∧ (AudioTranscriber.onMessage audioTranscriberConfig
        sampleAudioHandler true
        (Body.json (Json.obj sampleEnvelopeFields)) 11 none).trace
      = [BrokerOp.acknowledge 11,
         BrokerOp.publish "audio.transcription.completed"
           (AudioTranscriber.successPayload
             ⟨"2025/01/15/abc123/transcription/john-doe.txt", "sessions",
              "text/plain"⟩)] := by
  have h1 := worker_success_acks_once_and_publishes_result
    transcriptAnalyzerConfig sampleTranscriptHandler sampleAudioHandler
    (Json.obj sampleEnvelopeFields) 11 none
    ⟨"2025/01/15/abc123/transcripts/john-doe.txt", "sessions"⟩
    ⟨"2025/01/15/abc123/transcripts/john-doe.txt", "sessions"⟩
    ⟨"2025/01/15/abc123/transcripts/john-doe.txt", "sessions", "abc123"⟩
    ⟨"2025/01/15/abc123/transcription/john-doe.txt", "sessions", "text/plain"⟩
    rfl rfl rfl rfl
  have h2 := worker_success_acks_once_and_publishes_result
    audioTranscriberConfig sampleTranscriptHandler sampleAudioHandler
    (Json.obj sampleEnvelopeFields) 11 none
    ⟨"2025/01/15/abc123/transcripts/john-doe.txt", "sessions"⟩
    ⟨"2025/01/15/abc123/transcripts/john-doe.txt", "sessions"⟩
    ⟨"2025/01/15/abc123/transcripts/john-doe.txt", "sessions", "abc123"⟩
    ⟨"2025/01/15/abc123/transcription/john-doe.txt", "sessions", "text/plain"⟩
    rfl rfl rfl rfl
  exact ⟨h1.1, h2.2⟩

/-- C9: envelope validation of both pydantic message models is
forward-compatible but requires the two mandatory keys: a JSON object whose
`file_name` and `bucket_name` entries are strings validates whatever other
unknown fields it carries, and a JSON object lacking `file_name` or lacking
`bucket_name` fails validation. -/
theorem envelope_validation_requires_exactly_the_two_keys :
    (∀ (fields : List (String × Json)) (f b : String),
      Json.lookup fields "file_name" = some (Json.str f) →
      Json.lookup fields "bucket_name" = some (Json.str b) →
      AudioMessage.model_validate (Json.obj fields) = some ⟨f, b⟩
      ∧ TranscriptMessage.model_validate (Json.obj fields) = some ⟨f, b⟩)
    ∧ (∀ (fields : List (String × Json)),
      Json.lookup fields "file_name" = none →
      AudioMessage.model_validate (Json.obj fields) = none
      ∧ TranscriptMessage.model_validate (Json.obj fields) = none)
    ∧ (∀ (fields : List (String × Json)),
      Json.lookup fields "bucket_name" = none →
      AudioMessage.model_validate (Json.obj fields) = none
      ∧ TranscriptMessage.model_validate (Json.obj fields) = none) := by
  refine ⟨fun fields f b hf hb => ?_, fun fields hf => ?_, fun fields hb => ?_⟩
  case _ =>
    constructor <;>
      simp [AudioMessage.model_validate, TranscriptMessage.model_validate,
        hf, hb]
  case _ =>
    constructor <;>
      simp [AudioMessage.model_validate, TranscriptMessage.model_validate, hf]
  case _ =>
    rcases hf : Json.lookup fields "file_name" with _ | v
    case _ =>
      constructor <;>
        simp [AudioMessage.model_validate, TranscriptMessage.model_validate,
          hf]
    case _ =>
      rcases v with _ | _ | _ | s | _ | _ <;> constructor <;>
        simp [AudioMessage.model_validate, TranscriptMessage.model_validate,
          hf, hb]

/-- C9, witness: a concrete envelope with an extra unknown field validates;
concrete envelopes each missing one mandatory key fail validation. -/
theorem envelope_validation_requires_exactly_the_two_keys_witness :
    AudioMessage.model_validate
        (Json.obj [("file_name", Json.str "a/b.wav"),
                   ("extra_unknown", Json.num 3),
                   ("bucket_name", Json.str "sessions")])
      = some ⟨"a/b.wav", "sessions"⟩
    ∧ TranscriptMessage.model_validate
        (Json.obj [("bucket_name", Json.str "sessions")]) = none
    ∧ AudioMessage.model_validate
        (Json.obj [("file_name", Json.str "a/b.wav")]) = none := by
  refine ⟨?_, ?_, ?_⟩
  case _ =>
    exact (envelope_validation_requires_exactly_the_two_keys.1
      [("file_name", Json.str "a/b.wav"), ("extra_unknown", Json.num 3),
       ("bucket_name", Json.str "sessions")]
      "a/b.wav" "sessions" rfl rfl).1
  case _ =>
    exact (envelope_validation_requires_exactly_the_two_keys.2.1
      [("bucket_name", Json.str "sessions")] rfl).2
  case _ =>
    exact (envelope_validation_requires_exactly_the_two_keys.2.2
      [("file_name", Json.str "a/b.wav")] rfl).1

end PSA
